import Mathlib

/-
Shallow embedding of src/utils/utils.py (repository egoricsss/university_notebookas).

The module has two parts:
  * `print_data_from_txt`: parses a whitespace-delimited text file into a
    styled table, with a 3-decimal formatting rule (`format_value`).
  * `GraphPlotter`: a stateful wrapper around matplotlib that creates
    figures, adds line/scatter series, and saves images to disk,
    auto-creating directories.

Modelling conventions:
  * A file is its list of lines (`List String`).
  * Python floats are idealised as rationals `ℚ` extended with signed
    infinities and NaN (`PyVal`); `np.round` is round-half-to-even on the
    exact rational, and the f-string rendering of a 3-decimal value is the
    shortest positional decimal (trailing fractional zeros dropped, at
    least one fractional digit kept), which is what CPython's float repr
    produces for every value reachable here.  Binary-float artefacts
    (negative zero, underscore digit separators, >=1e16 scientific
    notation) are outside the model; no claim depends on them.
  * Python exceptions are constructors of `PyError`; a fallible operation
    returns `Except PyError _`.
  * The filesystem is a set of directories and files plus an oracle
    `mkdirErr` telling which mkdir calls the OS would fail (permissions,
    invalid path); matplotlib's figure registry is an id-keyed list.
  * Process-global presentation state (plt.rcParams, np.set_printoptions,
    css table styles, the background-gradient flag) has no bearing on any
    claim and is not modelled.
-/

/-- A Python float value as produced by the parser: a finite rational,
positive or negative infinity, or NaN (used by pandas to pad short rows). -/
inductive PyVal where
  | finite (q : ℚ)
  | pinf
  | ninf
  | nan
deriving DecidableEq

/-- A Python exception, tagged by the kind the code can raise:
`lines[0]` on an empty list (IndexError), `float(v)` failure (ValueError),
`eval(v)` failure on a rewritten token, the pandas column-count mismatch
(ValueError "N columns passed, passed data had M columns"), an explicit
RuntimeError, and an AttributeError on a None attribute access. -/
inductive PyError where
  | indexError
  | valueError (msg : String)
  | evalError (tok : String)
  | columnsMismatch (ncols : Nat) (width : Nat)
  | runtimeError (msg : String)
  | attributeError (msg : String)
deriving DecidableEq

/-- Python `str.strip()`: drop whitespace from both ends. -/
def pyStrip (s : String) : String :=
  String.mk (((s.toList.dropWhile Char.isWhitespace).reverse.dropWhile
    Char.isWhitespace).reverse)

/-- Worker for `pySplit`: split on whitespace runs, accumulator holds the
current word reversed. -/
def wordsAcc : List Char → List Char → List (List Char)
  | [], acc => if acc = [] then [] else [acc.reverse]
  | c :: rest, acc =>
    if c.isWhitespace then
      if acc = [] then wordsAcc rest [] else acc.reverse :: wordsAcc rest []
    else wordsAcc rest (c :: acc)

/-- Python `str.split()` with no argument: split on runs of whitespace,
discarding empty fields. -/
def pySplit (s : String) : List String :=
  (wordsAcc s.toList []).map (fun cs => String.mk cs)

/-- Python `line.replace("inf", "np.inf")`: rewrite every occurrence of
`inf`, left to right, non-overlapping. -/
def replaceInf : List Char → List Char
  | 'i' :: 'n' :: 'f' :: rest => 'n' :: 'p' :: '.' :: 'i' :: 'n' :: 'f' :: replaceInf rest
  | c :: rest => c :: replaceInf rest
  | [] => []

/-- Python `"np.inf" in v`: substring test. -/
def hasNpInf : List Char → Bool
  | 'n' :: 'p' :: '.' :: 'i' :: 'n' :: 'f' :: _ => true
  | _ :: rest => hasNpInf rest
  | [] => false

/-- Numeric value of a digit string. -/
def digitsVal (cs : List Char) : Nat :=
  cs.foldl (fun a c => a * 10 + (c.toNat - 48)) 0

/-- The rational `n * 10 ^ e` (integer mantissa `n`, decimal exponent `e`),
built with `mkRat` so that it evaluates by kernel reduction. -/
def decValue (n : ℤ) (e : ℤ) : ℚ :=
  if 0 ≤ e then mkRat (n * 10 ^ e.toNat) 1 else mkRat n (10 ^ (-e).toNat)

/-- Exponent part of a float literal: optional sign, then digits to the
end; yields the mantissa with the exponent adjusted by the fractional
scale already consumed. -/
def parseExp (mant : ℕ) (scale : ℕ) (cs : List Char) : Option (ℕ × ℤ) :=
  let core := fun (sgnPos : Bool) (rest : List Char) =>
    let ds := rest.takeWhile Char.isDigit
    let tail := rest.dropWhile Char.isDigit
    if ds = [] ∨ tail ≠ [] then none
    else
      let e : ℤ := if sgnPos then (digitsVal ds : ℤ) else -(digitsVal ds : ℤ)
      some (mant, e - (scale : ℤ))
  match cs with
  | '+' :: rest => core true rest
  | '-' :: rest => core false rest
  | rest => core true rest

/-- Unsigned decimal float literal: digits, optional fraction, optional
exponent (CPython's grammar for `float()` after sign and specials), as a
mantissa/decimal-exponent pair. -/
def parseUnsigned (cs : List Char) : Option (ℕ × ℤ) :=
  let intPart := cs.takeWhile Char.isDigit
  let rest1 := cs.dropWhile Char.isDigit
  match rest1 with
  | [] => if intPart = [] then none else some (digitsVal intPart, 0)
  | '.' :: rest2 =>
    let fracPart := rest2.takeWhile Char.isDigit
    let rest3 := rest2.dropWhile Char.isDigit
    if intPart = [] ∧ fracPart = [] then none
    else
      let mant := digitsVal intPart * 10 ^ fracPart.length + digitsVal fracPart
      match rest3 with
      | [] => some (mant, -(fracPart.length : ℤ))
      | 'e' :: r => parseExp mant fracPart.length r
      | 'E' :: r => parseExp mant fracPart.length r
      | _ => none
  | 'e' :: r => if intPart = [] then none else parseExp (digitsVal intPart) 0 r
  | 'E' :: r => if intPart = [] then none else parseExp (digitsVal intPart) 0 r
  | _ => none

/-- Python `float(v)`: strip whitespace, optional sign, the specials
inf/infinity/nan (case-insensitive), else a decimal literal; anything else
raises `ValueError("could not convert string to float: '<v>'")`. -/
def pyFloat (v : String) : Except PyError PyVal :=
  let body0 := (pyStrip v).toList
  let signNeg := match body0 with
    | '-' :: _ => true
    | _ => false
  let body := match body0 with
    | '-' :: r => r
    | '+' :: r => r
    | r => r
  let lower := String.mk (body.map Char.toLower)
  if lower = "inf" ∨ lower = "infinity" then
    .ok (if signNeg then .ninf else .pinf)
  else if lower = "nan" then .ok .nan
  else
    match parseUnsigned body with
    | some (m, e) => .ok (.finite (decValue (if signNeg then -(m : ℤ) else (m : ℤ)) e))
    | none => .error (.valueError ("could not convert string to float: '" ++ v ++ "'"))

/-- Modelled eval: Python `eval(v)` restricted to the expression forms a
numeric token can take after the `inf -> np.inf` rewriting; any other
token containing `np.inf` raises (NameError/AttributeError/SyntaxError,
collapsed into `evalError`). -/
def pyEval (v : String) : Except PyError PyVal :=
  if v = "np.inf" then .ok .pinf
  else if v = "-np.inf" then .ok .ninf
  else if v = "+np.inf" then .ok .pinf
  else .error (.evalError v)

/-- One token of a data row: `eval(v) if "np.inf" in v else float(v)`. -/
def convertToken (v : String) : Except PyError PyVal :=
  if hasNpInf v.toList then pyEval v else pyFloat v

/-- One data line: `line.replace("inf", "np.inf").split()` then convert
each token. -/
def convertLine (line : String) : Except PyError (List PyVal) :=
  (pySplit (String.mk (replaceInf line.toList))).mapM convertToken

/-- Width pandas infers for a list of row-lists: the maximum row length. -/
def maxWidth (data : List (List PyVal)) : Nat :=
  data.foldl (fun a r => max a r.length) 0

/-- `pd.DataFrame(data, columns=headers)` on a list of row-lists: an empty
list gives an empty frame; otherwise rows are laid out at the maximum row
width, shorter rows padded with NaN, and a width different from
`len(columns)` raises ValueError ("N columns passed, passed data had M
columns"). -/
def mkDataFrame (headers : List String) (data : List (List PyVal)) :
    Except PyError (List (List PyVal)) :=
  if data = [] then .ok []
  else if maxWidth data = headers.length then
    .ok (data.map (fun r => r ++ List.replicate (maxWidth data - r.length) PyVal.nan))
  else .error (.columnsMismatch headers.length (maxWidth data))

/-- `Path(filename).name`: the last slash-separated component. -/
def pathName (p : String) : String :=
  String.mk ((p.toList.reverse.takeWhile (fun c => c ≠ '/')).reverse)

/-- The parsed table `print_data_from_txt` returns (the styled DataFrame,
keeping what the styling renders: headers, parsed rows, caption). -/
structure StyledTable where
  headers : List String
  rows : List (List PyVal)
  caption : String
deriving DecidableEq

/-- `print_data_from_txt(filename)` on the file's lines: keep non-blank
lines stripped, take `lines[0].split()` as headers (IndexError when there
is none), convert each remaining line, build the DataFrame.  The
`gradient` flag only adds background styling and is not modelled. -/
def print_data_from_txt (filename : String) (fileLines : List String) :
    Except PyError StyledTable :=
  let lines := (fileLines.map pyStrip).filter (fun l => l ≠ "")
  match lines with
  | [] => .error .indexError
  | hd :: rest =>
    match rest.mapM convertLine with
    | .error e => .error e
    | .ok data =>
      match mkDataFrame (pySplit hd) data with
      | .error e => .error e
      | .ok rows =>
        .ok { headers := pySplit hd, rows := rows,
              caption := "Экспериментальные данные из файла: " ++ pathName filename }

deriving instance DecidableEq for Except

/-- Round half to even of the fraction `n / d` (`d` positive): floor
division, then compare twice the remainder against `d`. -/
def roundHalfEvenND (n : ℤ) (d : ℤ) : ℤ :=
  if 2 * (n - Int.fdiv n d * d) < d then Int.fdiv n d
  else if d < 2 * (n - Int.fdiv n d * d) then Int.fdiv n d + 1
  else if Int.fdiv n d % 2 = 0 then Int.fdiv n d
  else Int.fdiv n d + 1

/-- `np.round(q, 3)` as an integer number of thousandths: round half to
even of `q * 1000 = (1000 * q.num) / q.den`. -/
def np_round3 (q : ℚ) : ℤ := roundHalfEvenND (1000 * q.num) (q.den : ℤ)

/-- The decimal digit character for `n % 10`. -/
def digitChar (n : Nat) : Char := Char.ofNat (48 + n % 10)

/-- Fractional digits of a thousandths count `0 <= fp < 1000` as CPython
repr prints them: three digits with trailing zeros dropped, at least one
digit kept. -/
def frac3 (fp : Nat) : String :=
  let ds := [digitChar (fp / 100), digitChar (fp / 10), digitChar fp]
  let stripped := (ds.reverse.dropWhile (fun c => c = '0')).reverse
  if stripped = [] then "0" else String.mk stripped

/-- CPython `repr`/`str` of the float `k / 1000` (`k` thousandths): sign,
integer part, point, fractional digits without trailing zeros. -/
def render3 (k : ℤ) : String :=
  if k < 0 then "-" ++ (toString (k.natAbs / 1000) ++ "." ++ frac3 (k.natAbs % 1000))
  else toString (k.natAbs / 1000) ++ "." ++ frac3 (k.natAbs % 1000)

/-- `format_value(x)` from print_data_from_txt: `"inf"` when `x == np.inf`,
else the f-string rendering of `np.round(x, 3)` (every cell value is a
float, so the isinstance branch always takes the f-string). -/
def format_value (x : PyVal) : String :=
  match x with
  | .pinf => "inf"
  | .ninf => "-inf"
  | .nan => "nan"
  | .finite q => render3 (np_round3 q)

/-- One rendered series on an axes object: line (`ax.plot`) or scatter
(`ax.scatter`), with the data, legend label and merged style kwargs. -/
structure Series where
  isScatter : Bool
  xdata : List ℚ
  ydata : List ℚ
  label : Option String
  style : List (String × String)
deriving DecidableEq

/-- An axes object: labels, optional title, grid style, the rendered
series in order, and the legend options once `ax.legend` has run. -/
structure AxesData where
  xlabel : String
  ylabel : String
  title : Option String
  grid : List (String × String)
  series : List Series
  legend : Option (List (String × String))
deriving DecidableEq

/-- The filesystem: existing directories and written files (as component
lists), plus an oracle saying which `mkdir` calls the OS fails
(permissions, invalid path) and with what message. -/
structure FS where
  dirs : List (List String)
  files : List (List String)
  mkdirErr : List String → Option String

/-- A path rendered the way `str(Path(...))` joins components. -/
def pathStr : List String → String
  | [] => ""
  | [x] => x
  | x :: rest => x ++ "/" ++ pathStr rest

/-- The nonempty initial segments of a path: every directory
`mkdir(parents=True)` guarantees to exist. -/
def initSegs (p : List String) : List (List String) :=
  (List.range p.length).map (fun k => p.take (k + 1))

/-- `Path(p).mkdir(parents=True, exist_ok=True)` on success: all initial
segments of `p` become existing directories. -/
def FS.mkdirParents (fs : FS) (p : List String) : FS :=
  { fs with dirs := fs.dirs ++ initSegs p }

/-- `GraphPlotter._ensure_directory_exists`: try mkdir, wrap any OS error
in `RuntimeError(f"Failed to create directory {path}: {e}")`. -/
def ensure_directory_exists (fs : FS) (p : List String) : Except PyError FS :=
  match fs.mkdirErr p with
  | some e => .error (.runtimeError ("Failed to create directory " ++ pathStr p ++ ": " ++ e))
  | none => .ok (fs.mkdirParents p)

/-- The per-instance fields of a GraphPlotter: base directory, figure
size, grid style, and the two mutable slots holding the id of the current
figure and of the current axes (None while Idle). -/
structure GraphPlotter where
  base_dir : List String
  figsize : Nat × Nat
  grid_style : List (String × String)
  current_figure : Option Nat
  current_axes : Option Nat

/-- The world a GraphPlotter acts on: the filesystem, the plotter
instance, matplotlib's registry of open figures (id-keyed), and the next
fresh figure id. -/
structure World where
  fs : FS
  plotter : GraphPlotter
  figures : List (Nat × AxesData)
  nextId : Nat

/-- Look a figure id up in the registry. -/
def lookupFig : List (Nat × AxesData) → Nat → Option AxesData
  | [], _ => none
  | (k, a) :: rest, i => if k = i then some a else lookupFig rest i

/-- Apply `f` to the axes stored under id `i` (mutating the object the
slot points at). -/
def updateFig : List (Nat × AxesData) → Nat → (AxesData → AxesData) → List (Nat × AxesData)
  | [], _, _ => []
  | (k, a) :: rest, i, f =>
    (if k = i then (k, f a) else (k, a)) :: updateFig rest i f

/-- Python `dict.update`: existing keys keep their position and take the
new value, new keys are appended in order. -/
def dictUpdate (d : List (String × String)) (u : List (String × String)) :
    List (String × String) :=
  u.foldl (fun acc kv =>
    if acc.any (fun p => p.1 = kv.1) then
      acc.map (fun p => if p.1 = kv.1 then kv else p)
    else acc ++ [kv]) d

/-- The default grid style from `__init__`. -/
def gridDefault : List (String × String) := [("linestyle", "--"), ("alpha", "0.6")]

/-- `GraphPlotter.__init__`: update global rcParams (presentation only,
not modelled), ensure the base directory exists (wrapping OS errors), and
start Idle with both slots None.  `grid_style or default` replaces a falsy
argument (None or an empty dict) by the default. -/
def GraphPlotter.init (fs : FS) (base_dir : List String) (figsize : Nat × Nat)
    (grid_style : Option (List (String × String))) : Except PyError World :=
  match ensure_directory_exists fs base_dir with
  | .error e => .error e
  | .ok fs1 =>
    .ok { fs := fs1,
          plotter := { base_dir := base_dir, figsize := figsize,
                       grid_style := match grid_style with
                         | none => gridDefault
                         | some [] => gridDefault
                         | some g => g,
                       current_figure := none, current_axes := none },
          figures := [], nextId := 0 }

/-- `GraphPlotter.create_figure`: `plt.subplots` makes a fresh figure/axes
pair (same fresh id for both slots), grid and labels are applied, the
title when given.  No check of the previous state: an unsaved open figure
is simply abandoned in the registry. -/
def create_figure (w : World) (xlabel ylabel : String) (title : Option String) : World :=
  let i := w.nextId
  let ax : AxesData := { xlabel := xlabel, ylabel := ylabel, title := title,
                         grid := w.plotter.grid_style, series := [], legend := none }
  { w with figures := (i, ax) :: w.figures, nextId := i + 1,
           plotter := { w.plotter with current_figure := some i, current_axes := some i } }

/-- Default line style of `add_plot`. -/
def plotDefaults : List (String × String) := [("linewidth", "1.5"), ("linestyle", "-")]

/-- Default scatter style of `add_scatter`. -/
def scatterDefaults : List (String × String) := [("s", "20"), ("alpha", "0.7")]

/-- `GraphPlotter.add_plot`: RuntimeError while no axes are current, else
append a line series with the default style merged with the caller's
kwargs. -/
def add_plot (w : World) (x_data y_data : List ℚ) (label : Option String)
    (plot_kwargs : List (String × String)) : Except PyError World :=
  match w.plotter.current_axes with
  | none => .error (.runtimeError "Call create_figure() before adding plots")
  | some j =>
    .ok { w with figures := updateFig w.figures j (fun ax =>
            { ax with series := ax.series ++
                [{ isScatter := false, xdata := x_data, ydata := y_data,
                   label := label, style := dictUpdate plotDefaults plot_kwargs }] }) }

/-- `GraphPlotter.add_scatter`: same contract as `add_plot`, scatter
defaults, unconnected points. -/
def add_scatter (w : World) (x_data y_data : List ℚ) (label : Option String)
    (scatter_kwargs : List (String × String)) : Except PyError World :=
  match w.plotter.current_axes with
  | none => .error (.runtimeError "Call create_figure() before adding plots")
  | some j =>
    .ok { w with figures := updateFig w.figures j (fun ax =>
            { ax with series := ax.series ++
                [{ isScatter := true, xdata := x_data, ydata := y_data,
                   label := label, style := dictUpdate scatterDefaults scatter_kwargs }] }) }

/-- The legend step of `save`: when `legend` is set, call
`self.current_axes.legend(**defaults merged with legend_opts)`; the
`# type: ignore` access would be an AttributeError if the axes slot were
None with a figure still current. -/
def legendStep (w : World) (legend : Bool) (legend_opts : Option (List (String × String))) :
    Except PyError (List (Nat × AxesData)) :=
  if legend then
    match w.plotter.current_axes with
    | none => .error (.attributeError "NoneType object has no attribute legend")
    | some j =>
      .ok (updateFig w.figures j (fun ax =>
        { ax with legend := some (dictUpdate [("loc", "best"), ("frameon", "True")]
            (legend_opts.getD [])) }))
  else .ok w.figures

/-- `GraphPlotter.save`: RuntimeError while no figure is current; else
ensure `base_dir / subdir` exists (wrapping OS errors), optionally attach
the legend, optionally show (no modelled effect), write the image at
`base_dir / subdir / filename` (dpi and tight bounding box affect only
pixels), close the figure and reset both slots to None. -/
def save (w : World) (subdir : List String) (filename : String) (dpi : Nat)
    (legend : Bool) (legend_opts : Option (List (String × String))) (showPlot : Bool) :
    Except PyError World :=
  match w.plotter.current_figure with
  | none => .error (.runtimeError "No active figure to save")
  | some i =>
    match ensure_directory_exists w.fs (w.plotter.base_dir ++ subdir) with
    | .error e => .error e
    | .ok fs1 =>
      match legendStep w legend legend_opts with
      | .error e => .error e
      | .ok figs1 =>
        .ok { fs := { fs1 with files := fs1.files ++ [(w.plotter.base_dir ++ subdir) ++ [filename]] },
              plotter := { w.plotter with current_figure := none, current_axes := none },
              figures := figs1.filter (fun p => ¬ p.1 = i),
              nextId := w.nextId }

/-- Round half to even of an integer (denominator 1) is the integer. -/
theorem roundHalfEvenND_one (n : ℤ) : roundHalfEvenND n 1 = n := by
  unfold roundHalfEvenND
  simp

/-- `np.round` of a natural number to 3 decimals is exactly its
thousandths. -/
theorem np_round3_natCast (n : ℕ) : np_round3 (n : ℚ) = 1000 * (n : ℤ) := by
  unfold np_round3
  rw [Rat.num_natCast, Rat.den_natCast]
  simpa using roundHalfEvenND_one (1000 * (n : ℤ))

/-- Rendering a whole number of thousands of thousandths: the integer
followed by ".0". -/
theorem render3_thousand (n : ℕ) : render3 (1000 * (n : ℤ)) = toString n ++ ".0" := by
  unfold render3
  rw [if_neg (by omega)]
  have hm : (1000 * (n : ℤ)).natAbs = 1000 * n := by
    simp [Int.natAbs_mul]
  rw [hm]
  have h3 : 1000 * n / 1000 = n := by omega
  have h4 : 1000 * n % 1000 = 0 := by omega
  rw [h3, h4, show frac3 0 = "0" from by decide, String.append_assoc]
  rfl

/-- C1 counterexample: on the spec's own scenario the code renders the
finite value `0` as `"0.0"` and `1` as `"1.0"`, not `"0.000"`/`"1.000"`
as the claim states (the f-string of a rounded float drops trailing
zeros). -/
theorem C1_counterexample :
    print_data_from_txt "c.txt" ["x y", "0 0", "1 1", "2 inf"] =
      .ok { headers := ["x", "y"],
            rows := [[.finite 0, .finite 0], [.finite 1, .finite 1], [.finite 2, .pinf]],
            caption := "Экспериментальные данные из файла: c.txt" } ∧
    (format_value (PyVal.finite 0) = "0.0" ∧ ¬ format_value (PyVal.finite 0) = "0.000") ∧
    (format_value (PyVal.finite 1) = "1.0" ∧ ¬ format_value (PyVal.finite 1) = "1.000") := by
  decide

/-- C1 (amended): every finite value is rendered as the shortest decimal
of its 3-decimal rounding (trailing fractional zeros dropped, one
fractional digit kept): `1.23456` renders `"1.235"`, but a whole number
`n` renders `"<n>.0"` rather than `"<n>.000"`; positive infinity renders
the literal `"inf"`. -/
theorem C1_format_rule :
    format_value PyVal.pinf = "inf" ∧
    format_value (PyVal.finite (mkRat 123456 100000)) = "1.235" ∧
    (∀ n : ℕ, format_value (PyVal.finite (n : ℚ)) = toString n ++ ".0") := by
  refine ⟨by decide, by decide, fun n => ?_⟩
  show render3 (np_round3 (n : ℚ)) = _
  rw [np_round3_natCast, render3_thousand]

/-- C2 counterexample: with a 2-column header, the data row `"1"` has one
field yet the file is accepted: pandas pads the short row with NaN
instead of rejecting it. -/
theorem C2_counterexample :
    print_data_from_txt "t.txt" ["x y", "0 0", "1"] =
      .ok { headers := ["x", "y"],
            rows := [[.finite 0, .finite 0], [.finite 1, .nan]],
            caption := "Экспериментальные данные из файла: t.txt" } := by
  decide

/-- C2 (amended): for a nonempty data block the DataFrame construction
rejects the file exactly when the maximum field count over the data rows
differs from the header count n; a row with more than n fields therefore
always causes rejection, but a row with fewer fields is padded with NaN
whenever some row reaches the maximum n. -/
theorem C2_field_count (headers : List String) (data : List (List PyVal))
    (hne : data ≠ []) :
    (∃ rows, mkDataFrame headers data = .ok rows) ↔ maxWidth data = headers.length := by
  unfold mkDataFrame
  rw [if_neg hne]
  split_ifs with h
  · exact iff_of_true ⟨_, rfl⟩ h
  · exact iff_of_false (by rintro ⟨rows, h2⟩; cases h2) h

/-- C2 witness: the characterisation applied to a concrete header and
data block. -/
theorem C2_field_count_witness :
    (∃ rows, mkDataFrame ["a"] [[PyVal.finite 0]] = .ok rows) ↔
      maxWidth [[PyVal.finite 0]] = ["a"].length :=
  C2_field_count ["a"] [[PyVal.finite 0]] (by decide)

/-- C6 counterexample: a file with a field-count mismatch (row `"4 5"`
under a 3-column header) parses successfully instead of failing with a
parsing error. -/
theorem C6_counterexample :
    print_data_from_txt "u.txt" ["a b c", "1 2 3", "4 5"] =
      .ok { headers := ["a", "b", "c"],
            rows := [[.finite 1, .finite 2, .finite 3], [.finite 4, .finite 5, .nan]],
            caption := "Экспериментальные данные из файла: u.txt" } := by
  decide

/-- C6 (amended): an unparsable numeric token fails with
`ValueError("could not convert string to float: '<token>'")`, naming the
offending token rather than the offending line; a field-count mismatch is
only rejected when the maximum row width differs from the header count
(see C2), via a pandas column-count error that names no line either. -/
theorem C6_token_error (v m : String)
    (h : convertToken v = .error (.valueError m)) :
    m = "could not convert string to float: '" ++ v ++ "'" ∧
    print_data_from_txt "w.txt" ["x", "abc"] =
      .error (.valueError "could not convert string to float: 'abc'") := by
  refine ⟨?_, by decide⟩
  unfold convertToken at h
  split at h
  · unfold pyEval at h
    split_ifs at h <;> simp_all
  · unfold pyFloat at h
    simp only at h
    split_ifs at h
    all_goals
      split at h
      · exact Except.noConfusion h
      · injection h with h2
        injection h2 with h3
        exact h3.symm

/-- C6 witness: the token-naming property at the concrete token "abc". -/
theorem C6_token_error_witness :
    ("could not convert string to float: 'abc'" =
        "could not convert string to float: '" ++ "abc" ++ "'") ∧
      print_data_from_txt "w.txt" ["x", "abc"] =
        .error (.valueError "could not convert string to float: 'abc'") :=
  C6_token_error "abc" "could not convert string to float: 'abc'" (by decide)

/-- C8: a file that is empty or has only blank lines reaches
`lines[0]` with an empty list and raises IndexError, not a parsing
error. -/
theorem C8_blank_file_index_error (filename : String) (fileLines : List String)
    (h : ∀ l ∈ fileLines, pyStrip l = "") :
    print_data_from_txt filename fileLines = .error .indexError := by
  unfold print_data_from_txt
  have hnil : ((fileLines.map pyStrip).filter fun l => l ≠ "") = [] := by
    rw [List.filter_eq_nil_iff]
    intro a ha
    simp only [List.mem_map] at ha
    obtain ⟨l, hl, rfl⟩ := ha
    simp [h l hl]
  rw [hnil]

/-- C8 witness: the IndexError on a concrete blank file. -/
theorem C8_blank_file_index_error_witness :
    print_data_from_txt "e.txt" ["", "   ", "\t"] = .error .indexError :=
  C8_blank_file_index_error "e.txt" ["", "   ", "\t"] (by decide)

/-- C9: the token `-inf` is rewritten to `-np.inf`, goes through eval,
parses to negative infinity and is accepted as data, even though the spec
recognises only the positive-infinity literal. -/
theorem C9_neg_inf_accepted :
    convertLine "-inf" = .ok [PyVal.ninf] ∧
    print_data_from_txt "n.txt" ["x", "-inf"] =
      .ok { headers := ["x"], rows := [[PyVal.ninf]],
            caption := "Экспериментальные данные из файла: n.txt" } := by
  decide

/-- A filesystem whose mkdir oracle never fails. -/
def fsFree : FS := { dirs := [], files := [], mkdirErr := fun _ => none }

/-- A filesystem whose mkdir oracle always fails with a permission
error. -/
def fsDenied : FS := { dirs := [], files := [], mkdirErr := fun _ => some "Permission denied" }

/-- An Idle plotter world: both slots None, nothing open. -/
def idleW : World :=
  { fs := fsFree,
    plotter := { base_dir := ["graphs"], figsize := (10, 6), grid_style := gridDefault,
                 current_figure := none, current_axes := none },
    figures := [], nextId := 0 }

/-- A Figure-Open plotter world: figure 0 open with empty series. -/
def openW : World := create_figure idleW "t" "V" none

/-- A Figure-Open world whose filesystem denies every mkdir. -/
def openDeniedW : World := create_figure { idleW with fs := fsDenied } "t" "V" none

/-- C3: in the Idle state (both slots None) add_plot, add_scatter and
save all fail with the guard's RuntimeError — add_plot/add_scatter with
the message instructing to call create_figure first, save with the
message that no figure is active — and never reach a None attribute
access. -/
theorem C3_idle_usage_errors (w : World)
    (hf : w.plotter.current_figure = none) (ha : w.plotter.current_axes = none)
    (x y : List ℚ) (label : Option String) (kw : List (String × String))
    (subdir : List String) (filename : String) (dpi : Nat) (legend : Bool)
    (legend_opts : Option (List (String × String))) (showPlot : Bool) :
    add_plot w x y label kw =
      .error (.runtimeError "Call create_figure() before adding plots") ∧
    add_scatter w x y label kw =
      .error (.runtimeError "Call create_figure() before adding plots") ∧
    save w subdir filename dpi legend legend_opts showPlot =
      .error (.runtimeError "No active figure to save") := by
  refine ⟨?_, ?_, ?_⟩ <;> simp [add_plot, add_scatter, save, ha, hf]

/-- C3 witness: the three guard errors on a concrete Idle world. -/
theorem C3_idle_usage_errors_witness :
    add_plot idleW [] [] none [] =
      .error (.runtimeError "Call create_figure() before adding plots") ∧
    add_scatter idleW [] [] none [] =
      .error (.runtimeError "Call create_figure() before adding plots") ∧
    save idleW ["s"] "plot.png" 300 true none true =
      .error (.runtimeError "No active figure to save") :=
  C3_idle_usage_errors idleW rfl rfl [] [] none [] ["s"] "plot.png" 300 true none true

/-- Successful save computed explicitly: with a current figure `i`,
current axes `j` and a succeeding mkdir, `save` returns the world with
the target directories and the image file added, the saved figure closed,
and both slots None. -/
theorem save_open (w : World) (i j : Nat) (subdir : List String) (filename : String)
    (dpi : Nat) (legend : Bool) (legend_opts : Option (List (String × String)))
    (showPlot : Bool)
    (hf : w.plotter.current_figure = some i) (ha : w.plotter.current_axes = some j)
    (hmk : w.fs.mkdirErr (w.plotter.base_dir ++ subdir) = none) :
    save w subdir filename dpi legend legend_opts showPlot = .ok
      { fs := { dirs := w.fs.dirs ++ initSegs (w.plotter.base_dir ++ subdir),
                files := w.fs.files ++ [(w.plotter.base_dir ++ subdir) ++ [filename]],
                mkdirErr := w.fs.mkdirErr },
        plotter := { w.plotter with current_figure := none, current_axes := none },
        figures := (if legend then
            updateFig w.figures j (fun ax => { ax with legend := some (dictUpdate
              [("loc", "best"), ("frameon", "True")] (legend_opts.getD [])) })
          else w.figures).filter (fun p => ¬ p.1 = i),
        nextId := w.nextId } := by
  unfold save ensure_directory_exists legendStep FS.mkdirParents
  rw [hf, hmk, ha]
  cases legend <;> rfl

/-- C4: a successful save resets both slots to None, and a subsequent
create_figure succeeds, making both slots point at a fresh figure whose
axes carry the new labels and an empty series list — no residue from the
saved figure. -/
theorem C4_save_resets_then_fresh (w : World) (i j : Nat) (subdir : List String)
    (filename : String) (dpi : Nat) (legend : Bool)
    (legend_opts : Option (List (String × String))) (showPlot : Bool)
    (hf : w.plotter.current_figure = some i) (ha : w.plotter.current_axes = some j)
    (hmk : w.fs.mkdirErr (w.plotter.base_dir ++ subdir) = none)
    (xlabel ylabel : String) (title : Option String) :
    ∃ w1, save w subdir filename dpi legend legend_opts showPlot = .ok w1 ∧
      w1.plotter.current_figure = none ∧ w1.plotter.current_axes = none ∧
      (create_figure w1 xlabel ylabel title).plotter.current_figure = some w1.nextId ∧
      (create_figure w1 xlabel ylabel title).plotter.current_axes = some w1.nextId ∧
      lookupFig (create_figure w1 xlabel ylabel title).figures w1.nextId =
        some { xlabel := xlabel, ylabel := ylabel, title := title,
               grid := w.plotter.grid_style, series := [], legend := none } := by
  refine ⟨_, save_open w i j subdir filename dpi legend legend_opts showPlot hf ha hmk,
    rfl, rfl, rfl, rfl, ?_⟩
  simp [create_figure, lookupFig]

/-- C4 witness: saving the concrete open world and reopening. -/
theorem C4_save_resets_then_fresh_witness :
    ∃ w1, save openW ["a", "b"] "p.png" 300 true none true = .ok w1 ∧
      w1.plotter.current_figure = none ∧ w1.plotter.current_axes = none ∧
      (create_figure w1 "x2" "y2" (some "T")).plotter.current_figure = some w1.nextId ∧
      (create_figure w1 "x2" "y2" (some "T")).plotter.current_axes = some w1.nextId ∧
      lookupFig (create_figure w1 "x2" "y2" (some "T")).figures w1.nextId =
        some { xlabel := "x2", ylabel := "y2", title := some "T",
               grid := openW.plotter.grid_style, series := [], legend := none } :=
  C4_save_resets_then_fresh openW 0 0 ["a", "b"] "p.png" 300 true none true
    rfl rfl rfl "x2" "y2" (some "T")

/-- C5: a successful save on an open figure creates every missing
intermediate directory of `base_dir / subdir` (all its initial segments
exist afterwards) and writes the image at
`base_dir / subdir / filename`. -/
theorem C5_save_creates_dirs (w : World) (i j : Nat) (subdir : List String)
    (filename : String) (dpi : Nat) (legend : Bool)
    (legend_opts : Option (List (String × String))) (showPlot : Bool)
    (hf : w.plotter.current_figure = some i) (ha : w.plotter.current_axes = some j)
    (hmk : w.fs.mkdirErr (w.plotter.base_dir ++ subdir) = none) :
    ∃ w1, save w subdir filename dpi legend legend_opts showPlot = .ok w1 ∧
      w1.fs.dirs = w.fs.dirs ++ initSegs (w.plotter.base_dir ++ subdir) ∧
      initSegs (w.plotter.base_dir ++ subdir) ⊆ w1.fs.dirs ∧
      ((w.plotter.base_dir ++ subdir) ++ [filename]) ∈ w1.fs.files := by
  refine ⟨_, save_open w i j subdir filename dpi legend legend_opts showPlot hf ha hmk,
    rfl, ?_, ?_⟩
  · exact fun p hp => List.mem_append_right _ hp
  · exact List.mem_append_right _ (by simp)

/-- C5 witness: saving the concrete open world into the two-level
subdirectory a/b. -/
theorem C5_save_creates_dirs_witness :
    ∃ w1, save openW ["a", "b"] "p.png" 300 true none true = .ok w1 ∧
      w1.fs.dirs = openW.fs.dirs ++ initSegs (openW.plotter.base_dir ++ ["a", "b"]) ∧
      initSegs (openW.plotter.base_dir ++ ["a", "b"]) ⊆ w1.fs.dirs ∧
      ((openW.plotter.base_dir ++ ["a", "b"]) ++ ["p.png"]) ∈ w1.fs.files :=
  C5_save_creates_dirs openW 0 0 ["a", "b"] "p.png" 300 true none true rfl rfl rfl

/-- C7: when the OS refuses a mkdir, _ensure_directory_exists wraps the
failure in a RuntimeError whose message names the path that failed, and
both construction (`__init__`) and `save` surface exactly that error. -/
theorem C7_mkdir_failure_wrapped
    (fs : FS) (base : List String) (figsize : Nat × Nat)
    (gs : Option (List (String × String))) (e : String)
    (h1 : fs.mkdirErr base = some e)
    (w : World) (i : Nat) (subdir : List String) (filename : String) (dpi : Nat)
    (legend : Bool) (legend_opts : Option (List (String × String))) (showPlot : Bool)
    (e2 : String) (hf : w.plotter.current_figure = some i)
    (h2 : w.fs.mkdirErr (w.plotter.base_dir ++ subdir) = some e2) :
    ensure_directory_exists fs base =
      .error (.runtimeError ("Failed to create directory " ++ pathStr base ++ ": " ++ e)) ∧
    GraphPlotter.init fs base figsize gs =
      .error (.runtimeError ("Failed to create directory " ++ pathStr base ++ ": " ++ e)) ∧
    save w subdir filename dpi legend legend_opts showPlot =
      .error (.runtimeError ("Failed to create directory " ++
        pathStr (w.plotter.base_dir ++ subdir) ++ ": " ++ e2)) := by
  refine ⟨?_, ?_, ?_⟩ <;>
    simp [ensure_directory_exists, GraphPlotter.init, save, h1, h2, hf]

/-- C7 witness: a denied mkdir on construction and on save, with the
failed path named in the message. -/
theorem C7_mkdir_failure_wrapped_witness :
    ensure_directory_exists fsDenied ["graphs"] =
      .error (.runtimeError ("Failed to create directory " ++ pathStr ["graphs"] ++
        ": " ++ "Permission denied")) ∧
    GraphPlotter.init fsDenied ["graphs"] (10, 6) none =
      .error (.runtimeError ("Failed to create directory " ++ pathStr ["graphs"] ++
        ": " ++ "Permission denied")) ∧
    save openDeniedW ["s"] "p.png" 300 true none true =
      .error (.runtimeError ("Failed to create directory " ++
        pathStr (openDeniedW.plotter.base_dir ++ ["s"]) ++ ": " ++ "Permission denied")) :=
  C7_mkdir_failure_wrapped fsDenied ["graphs"] (10, 6) none "Permission denied" rfl
    openDeniedW 0 ["s"] "p.png" 300 true none true "Permission denied" rfl rfl

/-- Updating the axes stored under the looked-up id rewrites exactly that
entry. -/
theorem lookupFig_updateFig_self (figs : List (Nat × AxesData)) (j : Nat)
    (f : AxesData → AxesData) (ax : AxesData) (h : lookupFig figs j = some ax) :
    lookupFig (updateFig figs j f) j = some (f ax) := by
  induction figs with
  | nil => exact Option.noConfusion h
  | cons p rest ih =>
    obtain ⟨k, a⟩ := p
    have hu : updateFig ((k, a) :: rest) j f =
        (if k = j then (k, f a) else (k, a)) :: updateFig rest j f := rfl
    by_cases hk : k = j
    · subst hk
      rw [hu, if_pos rfl]
      have hl : lookupFig ((k, f a) :: updateFig rest k f) k =
          if k = k then some (f a) else lookupFig (updateFig rest k f) k := rfl
      rw [hl, if_pos rfl]
      have hh : (if k = k then some a else lookupFig rest k) = some ax := h
      rw [if_pos rfl] at hh
      exact congrArg (fun z => some (f z)) (Option.some.inj hh)
    · rw [hu, if_neg hk]
      have hl : lookupFig ((k, a) :: updateFig rest j f) j =
          if k = j then some a else lookupFig (updateFig rest j f) j := rfl
      rw [hl, if_neg hk]
      have hh : (if k = j then some a else lookupFig rest j) = some ax := h
      rw [if_neg hk] at hh
      exact ih hh

/-- C10: in the Figure-Open state add_plot and add_scatter succeed and
leave the whole plotter record — in particular both the current-figure
and current-axes slots — the filesystem and the id supply unchanged; the
only change is one series appended to the current axes, so the
Figure-Open state is preserved by any such call. -/
theorem C10_add_preserves_slots (w : World) (j : Nat) (ax : AxesData)
    (ha : w.plotter.current_axes = some j)
    (hax : lookupFig w.figures j = some ax)
    (x y : List ℚ) (label : Option String) (kw : List (String × String)) :
    (∃ w1, add_plot w x y label kw = .ok w1 ∧
       w1.plotter = w.plotter ∧ w1.fs = w.fs ∧ w1.nextId = w.nextId ∧
       lookupFig w1.figures j = some { ax with series := ax.series ++
         [{ isScatter := false, xdata := x, ydata := y, label := label,
            style := dictUpdate plotDefaults kw }] }) ∧
    (∃ w2, add_scatter w x y label kw = .ok w2 ∧
       w2.plotter = w.plotter ∧ w2.fs = w.fs ∧ w2.nextId = w.nextId ∧
       lookupFig w2.figures j = some { ax with series := ax.series ++
         [{ isScatter := true, xdata := x, ydata := y, label := label,
            style := dictUpdate scatterDefaults kw }] }) := by
  constructor
  · refine ⟨{ w with figures := updateFig w.figures j (fun a => { a with series :=
        a.series ++ [{ isScatter := false, xdata := x, ydata := y, label := label,
                       style := dictUpdate plotDefaults kw }] }) }, ?_, rfl, rfl, rfl, ?_⟩
    · simp only [add_plot, ha]
    · exact lookupFig_updateFig_self w.figures j _ ax hax
  · refine ⟨{ w with figures := updateFig w.figures j (fun a => { a with series :=
        a.series ++ [{ isScatter := true, xdata := x, ydata := y, label := label,
                       style := dictUpdate scatterDefaults kw }] }) }, ?_, rfl, rfl, rfl, ?_⟩
    · simp only [add_scatter, ha]
    · exact lookupFig_updateFig_self w.figures j _ ax hax

/-- C10 witness: adding a line and a scatter series to the concrete open
world. -/
theorem C10_add_preserves_slots_witness :
    (∃ w1, add_plot openW [0] [1] (some "s") [] = .ok w1 ∧
       w1.plotter = openW.plotter ∧ w1.fs = openW.fs ∧ w1.nextId = openW.nextId ∧
       lookupFig w1.figures 0 =
         some { xlabel := "t", ylabel := "V", title := none, grid := gridDefault,
                series := [] ++
                  [{ isScatter := false, xdata := [0], ydata := [1], label := some "s",
                     style := dictUpdate plotDefaults [] }],
                legend := none }) ∧
    (∃ w2, add_scatter openW [0] [1] (some "s") [] = .ok w2 ∧
       w2.plotter = openW.plotter ∧ w2.fs = openW.fs ∧ w2.nextId = openW.nextId ∧
       lookupFig w2.figures 0 =
         some { xlabel := "t", ylabel := "V", title := none, grid := gridDefault,
                series := [] ++
                  [{ isScatter := true, xdata := [0], ydata := [1], label := some "s",
                     style := dictUpdate scatterDefaults [] }],
                legend := none }) :=
  C10_add_preserves_slots openW 0
    { xlabel := "t", ylabel := "V", title := none, grid := gridDefault,
      series := [], legend := none }
    rfl rfl [0] [1] (some "s") []
